import Mathlib

/-!
Shallow embedding of the ziptax-node resilient request core:
the error taxonomy (src/exceptions.ts), the HTTP error classifier
(src/utils/http.ts, HTTPClient.handleError / extractErrorMessage) and the
retry engine (src/utils/retry.ts: DEFAULT_RETRY_OPTIONS, calculateDelay,
retryWithBackoff).

JavaScript numbers that can be NaN are modelled by `JsNumber`; optional JS
properties by `Option`; the retry loop by fuel-indexed recursion where the
fuel is the number of loop iterations still allowed by the loop condition
`attempt <= maxAttempts`.
-/

namespace Ziptax

/-- A JavaScript number that may be NaN (result of parseInt on garbage). -/
inductive JsNumber where
  | nan
  | int (i : Int)
deriving DecidableEq, Repr

/-- A JS value sitting in a field of a response body object: either a string
or something that is not a string (number, null, nested object, ...). -/
inductive JsPrim where
  | str (s : String)
  | nonstr
deriving DecidableEq, Repr

/-- The response body (`data`) attached to an HTTP error response: a plain
string, a structured object (field list), or anything else (null, number...). -/
inductive BodyData where
  | str (s : String)
  | obj (fields : List (String × JsPrim))
  | other
deriving DecidableEq, Repr

/-- The error taxonomy of src/exceptions.ts, one constructor per class.
Fields mirror the constructor-set instance properties; statuses hardwired by
a subclass constructor (401 for authentication, 429 for rate limit) are not
stored but produced by the `statusCode` accessor. `genericError` is a plain
JS `Error` (name "Error"). -/
inductive ZError where
  | networkError (message : String)
  | authenticationError (message : String)
  | rateLimitError (message : String) (retryAfter : Option JsNumber)
  | apiError (message : String) (statusCode : Option Int) (responseBody : Option BodyData)
  | validationError (message : String)
  | configurationError (message : String)
  | retryError (message : String) (attempts : Int) (lastError : Option ZError)
  | genericError (message : String)

/-- The `.name` property each exception class assigns in its constructor. -/
def ZError.name : ZError → String
  | .networkError _ => "ZiptaxNetworkError"
  | .authenticationError _ => "ZiptaxAuthenticationError"
  | .rateLimitError _ _ => "ZiptaxRateLimitError"
  | .apiError _ _ _ => "ZiptaxAPIError"
  | .validationError _ => "ZiptaxValidationError"
  | .configurationError _ => "ZiptaxConfigurationError"
  | .retryError _ _ _ => "ZiptaxRetryError"
  | .genericError _ => "Error"

/-- The `.statusCode` property as observed by JS property access: `some` on
instances of ZiptaxAPIError and its subclasses (401 and 429 hardwired by the
ZiptaxAuthenticationError and ZiptaxRateLimitError constructors), undefined
(`none`) on every other class. -/
def ZError.statusCode : ZError → Option Int
  | .authenticationError _ => some 401
  | .rateLimitError _ _ => some 429
  | .apiError _ sc _ => sc
  | _ => none

/-- The `.message` property. -/
def ZError.message : ZError → String
  | .networkError m => m
  | .authenticationError m => m
  | .rateLimitError m _ => m
  | .apiError m _ _ => m
  | .validationError m => m
  | .configurationError m => m
  | .retryError m _ _ => m
  | .genericError m => m

/-- The `.retryAfter` property (only ZiptaxRateLimitError sets it). -/
def ZError.retryAfter : ZError → Option JsNumber
  | .rateLimitError _ r => r
  | _ => none

/-- Instances of the ZiptaxAPIError class (including its subclasses). -/
def ZError.isApiKind : ZError → Bool
  | .authenticationError _ => true
  | .rateLimitError _ _ => true
  | .apiError _ _ _ => true
  | _ => false

/-- JS string-to-boolean coercion for strings: only "" is falsy. -/
def jsTruthyString (s : String) : Bool := s ≠ ""

/-- `a || b` on an optional string `a` and a string `b`: JS falls through to
`b` when `a` is undefined or the empty string. -/
def jsOrElse (a : Option String) (b : String) : String :=
  match a with
  | some s => if s = "" then b else s
  | none => b

/-- Whitespace skipped by JS parseInt. -/
def isJsSpace (c : Char) : Bool :=
  c = ' ' ∨ c = '\t' ∨ c = '\n' ∨ c = '\r'

/-- The longest leading run of decimal digits. -/
def leadingDigits : List Char → List Char
  | [] => []
  | c :: cs => if c.isDigit then c :: leadingDigits cs else []

/-- Numeric value of a digit list (most significant first). -/
def digitsVal (ds : List Char) : Nat :=
  ds.foldl (fun acc c => acc * 10 + (c.toNat - '0'.toNat)) 0

/-- JS `parseInt(s, 10)`: skip leading whitespace, optional sign, then the
longest decimal-digit prefix; NaN when that prefix is empty. -/
def jsParseInt (s : String) : JsNumber :=
  let cs := s.data.dropWhile isJsSpace
  match cs with
  | '-' :: t =>
      let ds := leadingDigits t
      if ds = [] then .nan else .int (-(digitsVal ds : Int))
  | '+' :: t =>
      let ds := leadingDigits t
      if ds = [] then .nan else .int (digitsVal ds)
  | t =>
      let ds := leadingDigits t
      if ds = [] then .nan else .int (digitsVal ds)

/-- `HTTPClient.extractErrorMessage`: a plain string body verbatim; on an
object, the `message` field if string-typed, else the `error` field if
string-typed; otherwise undefined. -/
def extractErrorMessage : BodyData → Option String
  | .str s => some s
  | .obj fields =>
      match fields.lookup "message" with
      | some (.str m) => some m
      | _ =>
          match fields.lookup "error" with
          | some (.str e) => some e
          | _ => none
  | .other => none

/-- An axios error response: status, body, headers map. -/
structure HttpResponse where
  status : Int
  data : BodyData
  headers : List (String × String)
deriving DecidableEq, Repr

/-- An axios transport failure: its `.message` and optional `.response`. -/
structure TransportFailure where
  message : String
  response : Option HttpResponse
deriving DecidableEq, Repr

/-- The raw value caught by `HTTPClient.request`: an axios error, some other
`Error` instance, or a non-Error throwable (stringified). -/
inductive RawError where
  | axios (f : TransportFailure)
  | plain (e : ZError)
  | nonError (s : String)

/-- `HTTPClient.handleError`: classify a raw failure into the taxonomy. -/
def handleError : RawError → ZError
  | .plain e => e
  | .nonError s => .genericError s
  | .axios f =>
      match f.response with
      | none =>
          .networkError (jsOrElse (some f.message) "Network request failed")
      | some r =>
          if r.status = 401 ∨ r.status = 403 then
            .authenticationError (jsOrElse (extractErrorMessage r.data) "Authentication failed")
          else if r.status = 429 then
            .rateLimitError (jsOrElse (extractErrorMessage r.data) "Rate limit exceeded")
              (match r.headers.lookup "retry-after" with
               | some h => if jsTruthyString h then some (jsParseInt h) else none
               | none => none)
          else
            .apiError
              (jsOrElse (extractErrorMessage r.data)
                ("API request failed with status " ++ toString r.status))
              (some r.status) (some r.data)

/-- `RetryOptions` of src/utils/retry.ts: every field optional. Delay values
and the multiplier are JS numbers, modelled exactly as rationals. -/
structure RetryOptions where
  maxAttempts : Option Int
  initialDelay : Option ℚ
  maxDelay : Option ℚ
  backoffMultiplier : Option ℚ
  shouldRetry : Option (ZError → Int → Bool)

/-- No options supplied: the `{}` default argument of retryWithBackoff. -/
def RetryOptions.none : RetryOptions := ⟨Option.none, Option.none, Option.none, Option.none, Option.none⟩

/-- `Required<RetryOptions>`: every field present. -/
structure ResolvedRetryOptions where
  maxAttempts : Int
  initialDelay : ℚ
  maxDelay : ℚ
  backoffMultiplier : ℚ
  shouldRetry : ZError → Int → Bool

/-- The default `shouldRetry` of DEFAULT_RETRY_OPTIONS: retry on network
errors and on API errors whose (truthy) statusCode is at least 500. The code
branches on `error.name` and reads `error.statusCode`; `statusCode ? ... :
false` treats a missing or zero status as falsy. -/
def defaultShouldRetry (error : ZError) (_attempt : Int) : Bool :=
  if error.name = "ZiptaxNetworkError" then true
  else if error.name = "ZiptaxAPIError" then
    match error.statusCode with
    | some sc => if sc = 0 then false else decide (500 ≤ sc)
    | Option.none => false
  else false

/-- DEFAULT_RETRY_OPTIONS of src/utils/retry.ts. -/
def DEFAULT_RETRY_OPTIONS : ResolvedRetryOptions :=
  ⟨3, 1000, 10000, 2, defaultShouldRetry⟩

/-- The spread merge `\x7b ...DEFAULT_RETRY_OPTIONS, ...options \x7d`: each
supplied field overrides the default. -/
def mergeOptions (o : RetryOptions) : ResolvedRetryOptions :=
  ⟨o.maxAttempts.getD DEFAULT_RETRY_OPTIONS.maxAttempts,
   o.initialDelay.getD DEFAULT_RETRY_OPTIONS.initialDelay,
   o.maxDelay.getD DEFAULT_RETRY_OPTIONS.maxDelay,
   o.backoffMultiplier.getD DEFAULT_RETRY_OPTIONS.backoffMultiplier,
   o.shouldRetry.getD DEFAULT_RETRY_OPTIONS.shouldRetry⟩

/-- `calculateDelay`: `min(initialDelay * backoffMultiplier ^ (attempt - 1),
maxDelay)`. The engine only calls it with `attempt ≥ 1`, so the exponent is
the natural number `attempt - 1`. -/
def calculateDelay (attempt : Int) (options : ResolvedRetryOptions) : ℚ :=
  min (options.initialDelay * options.backoffMultiplier ^ (attempt - 1).toNat)
    options.maxDelay

/-- What one invocation of the supplied operation does: resolve with a value,
reject with an `Error` instance, or reject with a non-Error throwable
(which the engine stringifies into a plain `Error`). -/
inductive Outcome (T : Type) where
  | ok (v : T)
  | threwError (e : ZError)
  | threwValue (s : String)

/-- Observable behaviour of one `retryWithBackoff` run: the value returned
or error thrown, how many times the operation was invoked, and the sleep
durations in order. -/
structure RetryTrace (T : Type) where
  result : Except ZError T
  invocations : Nat
  delays : List ℚ

/-- The attempt loop of `retryWithBackoff`. `fuel` is the number of
iterations the loop condition `attempt ≤ maxAttempts` still allows, so the
top-level call passes `maxAttempts.toNat` with `attempt = 1`; `fuel = 0` is
the loop falling through to the `ZiptaxRetryError` throw. The operation is
modelled as a function of the 1-based attempt number. -/
def retryGo {T : Type} (fn : Int → Outcome T) (opts : ResolvedRetryOptions) :
    Nat → Int → Option ZError → RetryTrace T
  | 0, _, lastError =>
      ⟨.error (.retryError
          ("Maximum retry attempts (" ++ toString opts.maxAttempts ++ ") exceeded")
          opts.maxAttempts lastError),
        0, []⟩
  | fuel + 1, attempt, _ =>
      match fn attempt with
      | .ok v => ⟨.ok v, 1, []⟩
      | .threwError e =>
          if attempt = opts.maxAttempts ∨ opts.shouldRetry e attempt = false then
            ⟨.error e, 1, []⟩
          else
            let rest := retryGo fn opts fuel (attempt + 1) (some e)
            ⟨rest.result, rest.invocations + 1, calculateDelay attempt opts :: rest.delays⟩
      | .threwValue s =>
          let e := ZError.genericError s
          if attempt = opts.maxAttempts ∨ opts.shouldRetry e attempt = false then
            ⟨.error e, 1, []⟩
          else
            let rest := retryGo fn opts fuel (attempt + 1) (some e)
            ⟨rest.result, rest.invocations + 1, calculateDelay attempt opts :: rest.delays⟩

/-- `retryWithBackoff(fn, options)` as a trace. -/
def retryWithBackoff {T : Type} (fn : Int → Outcome T) (options : RetryOptions) :
    RetryTrace T :=
  let opts := mergeOptions options
  retryGo fn opts opts.maxAttempts.toNat 1 Option.none

/-! ## General facts about the attempt loop -/

/-- One-step unfolding of the loop on an attempt that threw an `Error`. -/
theorem retryGo_step_threw {T : Type} (fn : Int → Outcome T) (opts : ResolvedRetryOptions)
    (fuel : Nat) (attempt : Int) (last : Option ZError) (e : ZError)
    (h : fn attempt = .threwError e) :
    retryGo fn opts (fuel + 1) attempt last =
      if attempt = opts.maxAttempts ∨ opts.shouldRetry e attempt = false then
        ⟨.error e, 1, []⟩
      else
        ⟨(retryGo fn opts fuel (attempt + 1) (some e)).result,
          (retryGo fn opts fuel (attempt + 1) (some e)).invocations + 1,
          calculateDelay attempt opts ::
            (retryGo fn opts fuel (attempt + 1) (some e)).delays⟩ := by
  conv_lhs => rw [retryGo]
  rw [h]

/-- One-step unfolding of the loop on an attempt that threw a non-Error. -/
theorem retryGo_step_threw_value {T : Type} (fn : Int → Outcome T)
    (opts : ResolvedRetryOptions) (fuel : Nat) (attempt : Int) (last : Option ZError)
    (s : String) (h : fn attempt = .threwValue s) :
    retryGo fn opts (fuel + 1) attempt last =
      if attempt = opts.maxAttempts ∨
          opts.shouldRetry (ZError.genericError s) attempt = false then
        ⟨.error (ZError.genericError s), 1, []⟩
      else
        ⟨(retryGo fn opts fuel (attempt + 1) (some (ZError.genericError s))).result,
          (retryGo fn opts fuel (attempt + 1) (some (ZError.genericError s))).invocations + 1,
          calculateDelay attempt opts ::
            (retryGo fn opts fuel (attempt + 1) (some (ZError.genericError s))).delays⟩ := by
  conv_lhs => rw [retryGo]
  rw [h]

/-- One-step unfolding of the loop on an attempt that succeeded. -/
theorem retryGo_step_ok {T : Type} (fn : Int → Outcome T) (opts : ResolvedRetryOptions)
    (fuel : Nat) (attempt : Int) (last : Option ZError) (v : T)
    (h : fn attempt = .ok v) :
    retryGo fn opts (fuel + 1) attempt last = ⟨.ok v, 1, []⟩ := by
  conv_lhs => rw [retryGo]
  rw [h]

/-- If the operation throws a retryable `Error` on every attempt the loop can
reach, the loop consumes all its fuel, invoking the operation once per unit
of fuel, and the error that comes out is the one thrown on the attempt equal
to `maxAttempts`. Stated for `fuel = f + 1` with the loop invariant
`attempt + f = maxAttempts`. -/
theorem retryGo_all_fail {T : Type} (fn : Int → Outcome T) (opts : ResolvedRetryOptions)
    (errs : Int → ZError) (hfn : ∀ i, fn i = .threwError (errs i)) :
    ∀ (f : Nat) (attempt : Int) (last : Option ZError),
      attempt + (f : Int) = opts.maxAttempts →
      (∀ i, attempt ≤ i → i < opts.maxAttempts → opts.shouldRetry (errs i) i = true) →
      (retryGo fn opts (f + 1) attempt last).result = .error (errs opts.maxAttempts) ∧
      (retryGo fn opts (f + 1) attempt last).invocations = f + 1 := by
  intro f
  induction f with
  | zero =>
      intro attempt last hEq hsr
      have hA : attempt = opts.maxAttempts := by omega
      subst hA
      rw [retryGo_step_threw fn opts 0 opts.maxAttempts last (errs opts.maxAttempts)
        (hfn opts.maxAttempts)]
      simp
  | succ f ih =>
      intro attempt last hEq hsr
      have hne : attempt ≠ opts.maxAttempts := by omega
      have hlt : attempt < opts.maxAttempts := by omega
      have hsrA : opts.shouldRetry (errs attempt) attempt = true :=
        hsr attempt le_rfl hlt
      have hcond : ¬(attempt = opts.maxAttempts ∨
          opts.shouldRetry (errs attempt) attempt = false) := by
        simp [hne, hsrA]
      have hrec := ih (attempt + 1) (some (errs attempt))
        (by omega)
        (fun i h1 h2 => hsr i (by omega) h2)
      rw [retryGo_step_threw fn opts (f + 1) attempt last (errs attempt) (hfn attempt),
        if_neg hcond]
      exact ⟨hrec.1, by simp [hrec.2]⟩

/-- Every delay the loop sleeps is `calculateDelay` of the attempt it
follows: the `j`-th recorded delay (0-based) of a loop entered at `attempt`
is `calculateDelay (attempt + j)`. -/
theorem retryGo_delay_entries {T : Type} (fn : Int → Outcome T)
    (opts : ResolvedRetryOptions) :
    ∀ (fuel : Nat) (attempt : Int) (last : Option ZError) (j : Nat),
      j < (retryGo fn opts fuel attempt last).delays.length →
      (retryGo fn opts fuel attempt last).delays[j]? =
        some (calculateDelay (attempt + (j : Int)) opts) := by
  intro fuel
  induction fuel with
  | zero =>
      intro attempt last j hj
      simp [retryGo] at hj
  | succ fuel ih =>
      intro attempt last j hj
      rcases hOut : fn attempt with v | e | s
      · rw [retryGo_step_ok fn opts fuel attempt last v hOut] at hj
        simp at hj
      · rw [retryGo_step_threw fn opts fuel attempt last e hOut] at hj ⊢
        by_cases hcond : attempt = opts.maxAttempts ∨
            opts.shouldRetry e attempt = false
        · rw [if_pos hcond] at hj
          simp at hj
        · rw [if_neg hcond] at hj ⊢
          rcases j with _ | j
          · simp
          · simp only [List.length_cons, add_lt_add_iff_right] at hj
            simp only [List.getElem?_cons_succ]
            have hrec := ih (attempt + 1) (some e) j hj
            rw [hrec]
            congr 2
            push_cast
            ring
      · rw [retryGo_step_threw_value fn opts fuel attempt last s hOut] at hj ⊢
        by_cases hcond : attempt = opts.maxAttempts ∨
            opts.shouldRetry (ZError.genericError s) attempt = false
        · rw [if_pos hcond] at hj
          simp at hj
        · rw [if_neg hcond] at hj ⊢
          rcases j with _ | j
          · simp
          · simp only [List.length_cons, add_lt_add_iff_right] at hj
            simp only [List.getElem?_cons_succ]
            have hrec := ih (attempt + 1) (some (ZError.genericError s)) j hj
            rw [hrec]
            congr 2
            push_cast
            ring

/-- If the operation succeeds on attempt `s` (within bounds) after throwing
retryable errors on attempts `attempt .. s - 1`, the loop returns that
success after `s - attempt + 1` invocations, with one recorded delay per
failed attempt. -/
theorem retryGo_success {T : Type} (fn : Int → Outcome T) (opts : ResolvedRetryOptions)
    (v : T) (s : Int) (hok : fn s = .ok v) (hsmax : s ≤ opts.maxAttempts)
    (errs : Int → ZError)
    (hfail : ∀ i, 1 ≤ i → i < s →
      fn i = .threwError (errs i) ∧ opts.shouldRetry (errs i) i = true) :
    ∀ (j : Nat) (fuel : Nat) (attempt : Int) (last : Option ZError),
      attempt + (j : Int) = s → 1 ≤ attempt → j + 1 ≤ fuel →
      (retryGo fn opts fuel attempt last).result = .ok v ∧
      (retryGo fn opts fuel attempt last).invocations = j + 1 ∧
      (retryGo fn opts fuel attempt last).delays.length = j := by
  intro j
  induction j with
  | zero =>
      intro fuel attempt last hEq h1 hfuel
      have hA : attempt = s := by omega
      subst hA
      rcases fuel with _ | fuel
      · omega
      · rw [retryGo_step_ok fn opts fuel attempt last v hok]
        simp
  | succ j ih =>
      intro fuel attempt last hEq h1 hfuel
      have hlt : attempt < s := by omega
      obtain ⟨hthrow, hsrA⟩ := hfail attempt h1 hlt
      have hne : attempt ≠ opts.maxAttempts := by omega
      have hcond : ¬(attempt = opts.maxAttempts ∨
          opts.shouldRetry (errs attempt) attempt = false) := by
        simp [hne, hsrA]
      rcases fuel with _ | fuel
      · omega
      · have hrec := ih fuel (attempt + 1) (some (errs attempt))
          (by omega) (by omega) (by omega)
        rw [retryGo_step_threw fn opts fuel attempt last (errs attempt) hthrow,
          if_neg hcond]
        refine ⟨hrec.1, ?_, ?_⟩
        · simp [hrec.2.1]
        · simp [hrec.2.2]

/-! ## Concrete operations used to instantiate the claims -/

/-- An operation that throws a network error on every attempt. -/
def alwaysNetworkError : Int → Outcome Unit :=
  fun _ => .threwError (.networkError "boom")

/-- An operation that throws a 400 API error on every attempt. -/
def always400 : Int → Outcome Unit :=
  fun _ => .threwError (.apiError "bad" (some 400) Option.none)

/-- An operation failing with a network error on attempt 1 and succeeding
with 7 from attempt 2 on. -/
def okOnSecond : Int → Outcome Nat :=
  fun i => if i < 2 then .threwError (.networkError "x") else .ok 7

/-! ## Claim theorems -/

/-- C1: for every policy whose merged maxAttempts is n with n at least 1 and
every operation that fails on every attempt with an Error that the merged
shouldRetry accepts on attempts 1..n-1, retryWithBackoff invokes the
operation exactly n times and throws exactly the error observed on the n-th
attempt, not a synthesized ZiptaxRetryError. -/
theorem retry_exhausts_with_final_error {T : Type} (o : RetryOptions)
    (fn : Int → Outcome T) (errs : Int → ZError)
    (hfn : ∀ i, fn i = .threwError (errs i))
    (hn : 1 ≤ (mergeOptions o).maxAttempts)
    (hsr : ∀ i, 1 ≤ i → i < (mergeOptions o).maxAttempts →
      (mergeOptions o).shouldRetry (errs i) i = true) :
    (retryWithBackoff fn o).invocations = (mergeOptions o).maxAttempts.toNat ∧
    (retryWithBackoff fn o).result = .error (errs (mergeOptions o).maxAttempts) := by
  have h := retryGo_all_fail fn (mergeOptions o) errs hfn
    ((mergeOptions o).maxAttempts.toNat - 1) 1 Option.none (by omega)
    (fun i h1 h2 => hsr i h1 h2)
  have hfuel : (mergeOptions o).maxAttempts.toNat - 1 + 1 =
      (mergeOptions o).maxAttempts.toNat := by omega
  rw [hfuel] at h
  simp only [retryWithBackoff]
  exact ⟨h.2, h.1⟩

/-- C1 witness: the default policy (maxAttempts 3) with an operation that
always throws a network error makes 3 invocations and rethrows that error. -/
theorem retry_exhausts_with_final_error_witness :
    (retryWithBackoff alwaysNetworkError RetryOptions.none).invocations = 3 ∧
    (retryWithBackoff alwaysNetworkError RetryOptions.none).result
        = .error (ZError.networkError "boom") := by
  have h := retry_exhausts_with_final_error RetryOptions.none
    alwaysNetworkError
    (fun _ => ZError.networkError "boom") (fun _ => rfl) (by decide)
    (fun _ _ _ => rfl)
  exact h

/-- C2: the j-th delay slept (0-based, i.e. the delay after the failure of
1-based attempt i = j + 1, a retryable non-last failure) equals
min(initialDelay * backoffMultiplier ^ j, maxDelay) of the merged policy. -/
theorem backoff_delay_formula {T : Type} (o : RetryOptions) (fn : Int → Outcome T)
    (j : Nat) (hj : j < (retryWithBackoff fn o).delays.length) :
    (retryWithBackoff fn o).delays[j]? =
      some (min ((mergeOptions o).initialDelay * (mergeOptions o).backoffMultiplier ^ j)
        (mergeOptions o).maxDelay) := by
  have h := retryGo_delay_entries fn (mergeOptions o)
    (mergeOptions o).maxAttempts.toNat 1 Option.none j hj
  have hexp : ((1 : Int) + (j : Int) - 1).toNat = j := by omega
  simp only [retryWithBackoff]
  rw [h]
  simp only [calculateDelay, hexp]

/-- C2 witness: with the default policy and an always-failing network error,
the first recorded delay is 1000 ms. -/
theorem backoff_delay_formula_witness :
    (retryWithBackoff alwaysNetworkError RetryOptions.none).delays[0]? = some 1000 := by
  have h := backoff_delay_formula RetryOptions.none alwaysNetworkError 0 (by decide)
  rw [h]
  norm_num [mergeOptions, RetryOptions.none, DEFAULT_RETRY_OPTIONS]

/-- C3: the default shouldRetry returns true exactly on network errors and
API-kind errors carrying a status code of at least 500; in particular it is
false on every 4xx API error (429 rate limits included), validation errors,
authentication errors, and errors without a recognizable status code. -/
theorem default_retry_predicate_iff (e : ZError) (a : Int) :
    defaultShouldRetry e a = true ↔
      ((∃ m, e = ZError.networkError m) ∨
        (e.isApiKind = true ∧ ∃ sc, e.statusCode = some sc ∧ 500 ≤ sc)) := by
  cases e with
  | apiError m sc b =>
      rcases sc with _ | v
      · simp [defaultShouldRetry, ZError.name, ZError.statusCode, ZError.isApiKind]
      · by_cases hv : v = 0
        · subst hv
          simp [defaultShouldRetry, ZError.name, ZError.statusCode, ZError.isApiKind]
        · simp [defaultShouldRetry, ZError.name, ZError.statusCode, ZError.isApiKind, hv]
  | _ =>
      simp [defaultShouldRetry, ZError.name, ZError.statusCode, ZError.isApiKind]

/-- C4: classifying status 401 yields an authentication error with statusCode
401; status 429 with header retry-after "60" yields a rate-limit error whose
retryAfter is 60; no response yields a network error; status 500 yields a
generic API error on which the default shouldRetry returns true. -/
theorem classifier_round_trip :
    (handleError (.axios ⟨"m", some ⟨401, .obj [], []⟩⟩)).name
        = "ZiptaxAuthenticationError" ∧
    (handleError (.axios ⟨"m", some ⟨401, .obj [], []⟩⟩)).statusCode = some 401 ∧
    (handleError (.axios ⟨"m", some ⟨429, .obj [], [("retry-after", "60")]⟩⟩)).name
        = "ZiptaxRateLimitError" ∧
    (handleError (.axios ⟨"m", some ⟨429, .obj [], [("retry-after", "60")]⟩⟩)).retryAfter
        = some (JsNumber.int 60) ∧
    (handleError (.axios ⟨"m", Option.none⟩)).name = "ZiptaxNetworkError" ∧
    (handleError (.axios ⟨"m", some ⟨500, .obj [], []⟩⟩)).name = "ZiptaxAPIError" ∧
    (handleError (.axios ⟨"m", some ⟨500, .obj [], []⟩⟩)).statusCode = some 500 ∧
    defaultShouldRetry (handleError (.axios ⟨"m", some ⟨500, .obj [], []⟩⟩)) 1 = true :=
  ⟨rfl, rfl, rfl, rfl, rfl, rfl, rfl, rfl⟩

/-- C5: an operation that succeeds on attempt k (1 ≤ k ≤ merged maxAttempts)
after retryable Error failures on attempts 1..k-1 is invoked exactly k times,
its success value is returned, and no delay follows the final attempt (there
are exactly k - 1 recorded delays). -/
theorem retry_success_on_attempt_k {T : Type} (o : RetryOptions)
    (fn : Int → Outcome T) (v : T) (k : Nat) (errs : Int → ZError)
    (hk1 : 1 ≤ k) (hkn : (k : Int) ≤ (mergeOptions o).maxAttempts)
    (hok : fn k = .ok v)
    (hfail : ∀ i : Int, 1 ≤ i → i < k →
      fn i = .threwError (errs i) ∧ (mergeOptions o).shouldRetry (errs i) i = true) :
    (retryWithBackoff fn o).result = .ok v ∧
    (retryWithBackoff fn o).invocations = k ∧
    (retryWithBackoff fn o).delays.length = k - 1 := by
  have h := retryGo_success fn (mergeOptions o) v (k : Int) hok hkn errs hfail
    (k - 1) (mergeOptions o).maxAttempts.toNat 1 Option.none
    (by omega) (by omega) (by omega)
  simp only [retryWithBackoff]
  refine ⟨h.1, ?_, h.2.2⟩
  rw [h.2.1]
  omega

/-- C5 witness: failing once with a network error then succeeding on attempt
2 under the default policy gives 2 invocations, the success value 7, and one
recorded delay. -/
theorem retry_success_on_attempt_k_witness :
    (retryWithBackoff okOnSecond RetryOptions.none).result = .ok 7 ∧
    (retryWithBackoff okOnSecond RetryOptions.none).invocations = 2 ∧
    (retryWithBackoff okOnSecond RetryOptions.none).delays.length = 1 := by
  have h := retry_success_on_attempt_k RetryOptions.none okOnSecond
    7 2 (fun _ => ZError.networkError "x") (by decide) (by decide) rfl
    (fun i h1 h2 => by
      have hi : i = 1 := by omega
      subst hi
      exact ⟨rfl, rfl⟩)
  exact h

/-- C6: if the first attempt throws an Error the merged shouldRetry rejects
on attempt 1, the engine stops after exactly one invocation (whatever
maxAttempts, provided the loop runs at all, i.e. maxAttempts ≥ 1) and throws
that very error, unwrapped. -/
theorem nonretryable_first_error_single_attempt {T : Type} (o : RetryOptions)
    (fn : Int → Outcome T) (e : ZError)
    (hn : 1 ≤ (mergeOptions o).maxAttempts)
    (h1 : fn 1 = .threwError e)
    (hsr : (mergeOptions o).shouldRetry e 1 = false) :
    (retryWithBackoff fn o).invocations = 1 ∧
    (retryWithBackoff fn o).result = .error e := by
  obtain ⟨f, hf⟩ : ∃ f, (mergeOptions o).maxAttempts.toNat = f + 1 :=
    ⟨(mergeOptions o).maxAttempts.toNat - 1, by omega⟩
  simp only [retryWithBackoff]
  rw [hf, retryGo_step_threw fn (mergeOptions o) f 1 Option.none e h1,
    if_pos (Or.inr hsr)]
  exact ⟨rfl, rfl⟩

/-- C6 witness: a 400 API error under the default predicate stops the engine
after one invocation even though maxAttempts is 3. -/
theorem nonretryable_first_error_single_attempt_witness :
    (retryWithBackoff always400 RetryOptions.none).invocations = 1 ∧
    (retryWithBackoff always400 RetryOptions.none).result
        = .error (ZError.apiError "bad" (some 400) Option.none) := by
  have h := nonretryable_first_error_single_attempt RetryOptions.none always400
    (ZError.apiError "bad" (some 400) Option.none) (by decide) rfl (by decide)
  exact h

/-- C7 counterexample: a 401 response whose body yields no extractable
message is classified with message "Authentication failed" — the fallback
hardwired in handleError — and not with the constructor default
"Authentication failed. Please check your API key.", which handleError
never lets apply because it always passes a message argument. -/
theorem auth_fallback_message_counterexample :
    (handleError (.axios ⟨"req", some ⟨401, .other, []⟩⟩)).message
        = "Authentication failed" ∧
    ¬((handleError (.axios ⟨"req", some ⟨401, .other, []⟩⟩)).message
        = "Authentication failed. Please check your API key.") :=
  ⟨rfl, by decide⟩

/-- C7 amended: for every 401 or 403 response whose body yields no
extractable message, the classifier produces an authentication error whose
message is exactly "Authentication failed". -/
theorem auth_fallback_message (m : String) (st : Int) (d : BodyData)
    (hs : List (String × String)) (hst : st = 401 ∨ st = 403)
    (hd : extractErrorMessage d = Option.none) :
    handleError (.axios ⟨m, some ⟨st, d, hs⟩⟩) =
      .authenticationError "Authentication failed" := by
  simp only [handleError]
  rw [if_pos hst, hd]
  rfl

/-- C7 witness: a 401 with a null body classifies to the "Authentication
failed" message. -/
theorem auth_fallback_message_witness :
    handleError (.axios ⟨"req", some ⟨401, .other, []⟩⟩) =
      .authenticationError "Authentication failed" :=
  auth_fallback_message "req" 401 .other [] (Or.inl rfl) rfl

/-- C8 counterexample: a 429 response with header retry-after "soon"
(present but not integer-parseable) gets retryAfter populated with NaN, not
left absent. -/
theorem rate_limit_nan_counterexample :
    (handleError (.axios ⟨"m", some ⟨429, .other, [("retry-after", "soon")]⟩⟩)).retryAfter
        = some JsNumber.nan ∧
    ¬((handleError (.axios ⟨"m", some ⟨429, .other, [("retry-after", "soon")]⟩⟩)).retryAfter
        = Option.none) :=
  ⟨rfl, by decide⟩

/-- C8 amended: on a 429 response, retryAfter is absent when the retry-after
header is missing or empty, and is populated with the JS parseInt result
whenever the header is present and nonempty — the parsed integer when
integer-parseable, NaN otherwise. -/
theorem rate_limit_retry_after_population (m : String) (d : BodyData)
    (hs : List (String × String)) :
    (hs.lookup "retry-after" = Option.none →
      (handleError (.axios ⟨m, some ⟨429, d, hs⟩⟩)).retryAfter = Option.none) ∧
    (∀ s, hs.lookup "retry-after" = some s → s = "" →
      (handleError (.axios ⟨m, some ⟨429, d, hs⟩⟩)).retryAfter = Option.none) ∧
    (∀ s, hs.lookup "retry-after" = some s → s ≠ "" →
      (handleError (.axios ⟨m, some ⟨429, d, hs⟩⟩)).retryAfter = some (jsParseInt s)) := by
  have hcls : handleError (.axios ⟨m, some ⟨429, d, hs⟩⟩) =
      .rateLimitError (jsOrElse (extractErrorMessage d) "Rate limit exceeded")
        (match hs.lookup "retry-after" with
         | some h => if jsTruthyString h then some (jsParseInt h) else Option.none
         | Option.none => Option.none) := by
    simp [handleError]
  refine ⟨?_, ?_, ?_⟩
  · intro h
    rw [hcls]
    simp [ZError.retryAfter, h]
  · intro s h hse
    subst hse
    rw [hcls]
    simp [ZError.retryAfter, h, jsTruthyString]
  · intro s h hse
    rw [hcls]
    simp [ZError.retryAfter, h, jsTruthyString, hse]

/-- C8 witness: no header leaves retryAfter absent; header "60" populates it
with the parsed integer 60. -/
theorem rate_limit_retry_after_population_witness :
    (handleError (.axios ⟨"m", some ⟨429, .other, []⟩⟩)).retryAfter = Option.none ∧
    (handleError (.axios ⟨"m", some ⟨429, .other, [("retry-after", "60")]⟩⟩)).retryAfter
        = some (jsParseInt "60") :=
  ⟨(rate_limit_retry_after_population "m" .other []).1 rfl,
   (rate_limit_retry_after_population "m" .other [("retry-after", "60")]).2.2 "60" rfl
     (by decide)⟩

/-- C9: classifying a 403 response yields an authentication error whose
statusCode is the constructor-hardwired 401, not the original 403. -/
theorem auth_statuscode_hardcoded_on_403 (m : String) (d : BodyData)
    (hs : List (String × String)) :
    (handleError (.axios ⟨m, some ⟨403, d, hs⟩⟩)).name = "ZiptaxAuthenticationError" ∧
    (handleError (.axios ⟨m, some ⟨403, d, hs⟩⟩)).statusCode = some 401 ∧
    ¬((handleError (.axios ⟨m, some ⟨403, d, hs⟩⟩)).statusCode = some 403) := by
  have h : handleError (.axios ⟨m, some ⟨403, d, hs⟩⟩) =
      .authenticationError (jsOrElse (extractErrorMessage d) "Authentication failed") := by
    simp [handleError]
  rw [h]
  exact ⟨rfl, rfl, by simp [ZError.statusCode]⟩

/-- C10: when the merged maxAttempts is below 1 the loop body never runs:
the operation is never invoked and a ZiptaxRetryError is thrown carrying the
message "Maximum retry attempts (maxAttempts) exceeded", attempts equal to
maxAttempts, and no lastError. -/
theorem below_one_max_attempts_retry_error {T : Type} (o : RetryOptions)
    (fn : Int → Outcome T)
    (hn : (mergeOptions o).maxAttempts < 1) :
    (retryWithBackoff fn o).invocations = 0 ∧
    (retryWithBackoff fn o).result = .error (.retryError
      ("Maximum retry attempts (" ++ toString (mergeOptions o).maxAttempts ++ ") exceeded")
      (mergeOptions o).maxAttempts Option.none) := by
  have hf : (mergeOptions o).maxAttempts.toNat = 0 := by omega
  simp only [retryWithBackoff]
  rw [hf]
  exact ⟨rfl, rfl⟩

/-- C10 witness: maxAttempts 0 gives zero invocations and the retry error
"Maximum retry attempts (0) exceeded" with attempts 0 and no lastError. -/
theorem below_one_max_attempts_retry_error_witness :
    (retryWithBackoff alwaysNetworkError
      ⟨some 0, Option.none, Option.none, Option.none, Option.none⟩).invocations = 0 ∧
    (retryWithBackoff alwaysNetworkError
      ⟨some 0, Option.none, Option.none, Option.none, Option.none⟩).result
        = .error (.retryError "Maximum retry attempts (0) exceeded" 0 Option.none) := by
  have h := below_one_max_attempts_retry_error
    ⟨some 0, Option.none, Option.none, Option.none, Option.none⟩
    alwaysNetworkError (by decide)
  exact h

end Ziptax
